import Mathlib

/-!
Shallow embedding of the natural_gallery_backend embedding pipeline and
hybrid search orchestrator.

Sources embedded:
- `src/unnamed/part_002` (embedding processor: `processImageEmbedding`,
  `processPendingEmbeddings`, `getEmbeddingStats`);
- `src/unnamed/part_003` (the `Image` mongoose schema: field defaults);
- `src/src/controllers/imageController.js` (`uploadMultipleImages`,
  `uploadImage`, `deleteImage`, `searchImages`);
- `src/src/config/qdrant.js` (`isQdrantConnected`, `checkQdrantHealth`
  return booleans and never throw; `getQdrantClient` may return null).

Modelling conventions:
- Timestamps are `Int` milliseconds (JS `Date.getTime()` arithmetic).
- Vectors are `List Int` (their numeric contents are irrelevant to the
  claims; only presence/absence and identity matter).
- The Qdrant index is an association list from point id (`qdrantId`) to
  vector.
- Fallible external calls (`generateImageEmbedding`, `qdrant.upsert`) are
  parameters of type `Except String _` / `Bool` describing the outcome the
  environment would produce; the functions below branch on them exactly as
  the JS control flow (try/catch) does.
- MongoDB itself is assumed operational (its unavailability short-circuits
  whole endpoints before the logic modelled here runs); metadata filters
  (`user`, date range, name regex) are abstracted as a predicate on records,
  matching their use as an opaque conjunct `...baseFilter` in the queries.
-/

/-- The `embeddingStatus` enum of the Image schema (part_003). -/
inductive EmbStatus where
  | pending
  | processing
  | completed
  | failed
deriving DecidableEq, Repr

/-- The fields of an Image document that the pipeline, stats, delete and
search logic read or write.  `createdAt` is the mongoose timestamp used by
the empty-query search branch; `user` the owner id. -/
structure ImageRecord where
  id : Nat
  user : Nat
  qdrantId : Nat
  createdAt : Int
  isEmbedded : Bool
  embeddingStatus : EmbStatus
  embeddingError : Option String
  embeddingAttempts : Nat
  lastEmbeddingAttempt : Option Int
deriving DecidableEq, Repr

/-- The Qdrant collection: point id ↦ stored vector. -/
abbrev VIndex := List (Nat × List Int)

/-- Model of `qdrant.upsert` with one point: insert-or-overwrite under `id`. -/
def vupsert (idx : VIndex) (id : Nat) (v : List Int) : VIndex :=
  (id, v) :: idx.filter (fun p => p.1 ≠ id)

/-- Outcomes the external services would produce during one
`processImageEmbedding` / upload fast path:
`embedResult` is the outcome of `generateImageEmbedding`, `qdrantConnected` is
`isQdrantConnected()`, `clientAvailable` is `getQdrantClient()` being
non-null, `upsertResult` is the outcome of `qdrant.upsert` (consulted only when
the upsert is actually attempted).  `checkQdrantHealth()` returns a boolean
that this code path ignores and never throws (qdrant.js), so it needs no
field. -/
structure EmbedEnv where
  embedResult : Except String (List Int)
  qdrantConnected : Bool
  clientAvailable : Bool
  upsertResult : Except String Unit
deriving Repr

def MAX_EMBEDDING_ATTEMPTS : Nat := 5
def RETRY_DELAY : Int := 60000

/-- Function `processImageEmbedding` (part_002 lines 13-70).
First update: status `processing`, `lastEmbeddingAttempt := now`,
`embeddingAttempts += 1`.  Then `generateImageEmbedding`; on success the
Qdrant block runs only when `isQdrantConnected()` and the client is
non-null, and afterwards the record is marked `completed` with
`isEmbedded := true`, `embeddingError := null` — also when the Qdrant block
was skipped.  Any thrown error lands in the catch, which sets status
`failed` and records the message (leaving `isEmbedded` untouched).
Returns the updated record and the updated index. -/
def processImageEmbedding (now : Int) (env : EmbedEnv) (rec : ImageRecord)
    (idx : VIndex) : ImageRecord × VIndex :=
  let rec1 := { rec with
    embeddingStatus := EmbStatus.processing
    lastEmbeddingAttempt := some now
    embeddingAttempts := rec.embeddingAttempts + 1 }
  match env.embedResult with
  | Except.error e =>
      ({ rec1 with embeddingStatus := EmbStatus.failed, embeddingError := some e }, idx)
  | Except.ok v =>
      if env.qdrantConnected && env.clientAvailable then
        match env.upsertResult with
        | Except.error e =>
            ({ rec1 with embeddingStatus := EmbStatus.failed, embeddingError := some e }, idx)
        | Except.ok _ =>
            ({ rec1 with
                isEmbedded := true
                embeddingStatus := EmbStatus.completed
                embeddingError := none },
             vupsert idx rec.qdrantId v)
      else
        ({ rec1 with
            isEmbedded := true
            embeddingStatus := EmbStatus.completed
            embeddingError := none }, idx)

/-- The eligibility query of `processPendingEmbeddings` (part_002 lines
90-102): status `pending`, or status `failed` with
`embeddingAttempts < MAX_EMBEDDING_ATTEMPTS` and (`lastEmbeddingAttempt`
absent or `lastEmbeddingAttempt < new Date(Date.now() - RETRY_DELAY)`,
a strict comparison). -/
def eligibleForProcessing (now : Int) (rec : ImageRecord) : Bool :=
  rec.embeddingStatus == EmbStatus.pending ||
  (rec.embeddingStatus == EmbStatus.failed &&
   rec.embeddingAttempts < MAX_EMBEDDING_ATTEMPTS &&
   (match rec.lastEmbeddingAttempt with
    | none => true
    | some t => t < now - RETRY_DELAY))

/-- Write-back of `findByIdAndUpdate`: replace the record with matching id. -/
def updateRecord (recs : List ImageRecord) (r : ImageRecord) : List ImageRecord :=
  recs.map (fun x => if x.id == r.id then r else x)

/-- The sequential for-loop of `processPendingEmbeddings` (lines 116-123):
process each batch element (a snapshot from the find) in order, writing the
result back by id. `envOf` gives each record id its environment outcomes. -/
def runBatch (now : Int) (envOf : Nat → EmbedEnv) (batch : List ImageRecord)
    (recs : List ImageRecord) (idx : VIndex) : List ImageRecord × VIndex :=
  match batch with
  | [] => (recs, idx)
  | b :: bs =>
      let out := processImageEmbedding now (envOf b.id) b idx
      runBatch now envOf bs (updateRecord recs out.1) out.2

/-- Module-level pipeline state: the `isProcessing` guard, `isAIModelReady()`,
the record store and the vector index. -/
structure SysState where
  isProcessing : Bool
  modelReady : Bool
  records : List ImageRecord
  index : VIndex
deriving Repr

/-- Body of a pipeline pass, after the guard has been taken: select the
eligible records, `.limit(10)`, process them sequentially, and (finally)
clear the guard. -/
def passBody (now : Int) (envOf : Nat → EmbedEnv) (s : SysState) : SysState :=
  let batch := (s.records.filter (eligibleForProcessing now)).take 10
  let out := runBatch now envOf batch s.records s.index
  { s with records := out.1, index := out.2, isProcessing := false }

/-- Entry point `processPendingEmbeddings` (part_002 lines 75-141): return immediately
if `isProcessing` is set; return if the AI model is not ready (before
taking the guard); otherwise set the guard, run the pass body and clear the
guard (the `finally`). -/
def processPendingEmbeddings (now : Int) (envOf : Nat → EmbedEnv)
    (s : SysState) : SysState :=
  if s.isProcessing then s
  else if !s.modelReady then s
  else passBody now envOf { s with isProcessing := true }

/-- Variant of `processPendingEmbeddings` in which the try-body throws after `k` batch
elements were processed (e.g. a store query fails): the catch swallows the
error and the `finally` still clears the guard. -/
def processPendingEmbeddingsErr (now : Int) (envOf : Nat → EmbedEnv)
    (k : Nat) (s : SysState) : SysState :=
  if s.isProcessing then s
  else if !s.modelReady then s
  else
    let s1 := { s with isProcessing := true }
    let batch := ((s1.records.filter (eligibleForProcessing now)).take 10).take k
    let out := runBatch now envOf batch s1.records s1.index
    { s1 with records := out.1, index := out.2, isProcessing := false }

/-- Two concurrent triggers of `processPendingEmbeddings`: trigger 1 passes
the guard checks and sets `isProcessing`; trigger 2 then runs to completion
(it observes the guard); trigger 1 then runs its pass body.  This is the
interleaving in which trigger 2 fires while trigger 1 is mid-pass; the
guard is set before any record is touched and cleared last, so any other
interleaving point mid-pass presents the same guarded state to trigger 2. -/
def twoConcurrentTriggers (now₁ now₂ : Int) (envOf₁ envOf₂ : Nat → EmbedEnv)
    (s : SysState) : SysState :=
  if s.isProcessing then s
  else if !s.modelReady then s
  else passBody now₁ envOf₁ (processPendingEmbeddings now₂ envOf₂ { s with isProcessing := true })

/-- Result shape of `getEmbeddingStats` (part_002 lines 177-196). -/
structure EmbeddingStats where
  total : Nat
  embedded : Nat
  pending : Nat
  processing : Nat
  failed : Nat
  percentage : Nat
deriving DecidableEq, Repr

/-- The query scope of `getEmbeddingStats` (part_002 line 178):
`userId ? { user: userId } : {}`. -/
def statsScope (userId : Option Nat) (records : List ImageRecord) :
    List ImageRecord :=
  match userId with
  | none => records
  | some u => records.filter (fun r => r.user == u)

/-- Function `getEmbeddingStats(userId)` (part_002 lines 177-196): counts over the
(optionally owner-scoped) store; `failed` counts only records with status
`failed` AND `embeddingAttempts < MAX_EMBEDDING_ATTEMPTS`;
`percentage = Math.round(embedded/total*100)` when `total > 0`, else 0
(`Math.round x = ⌊x + 1/2⌋`, here `⌊(200*embedded + total) / (2*total)⌋`). -/
def getEmbeddingStats (userId : Option Nat) (records : List ImageRecord) :
    EmbeddingStats :=
  let q := statsScope userId records
  let total := q.length
  let embedded := (q.filter (fun r => r.isEmbedded)).length
  { total := total
    embedded := embedded
    pending := (q.filter (fun r => r.embeddingStatus == EmbStatus.pending)).length
    processing := (q.filter (fun r => r.embeddingStatus == EmbStatus.processing)).length
    failed := (q.filter (fun r =>
        r.embeddingStatus == EmbStatus.failed &&
        r.embeddingAttempts < MAX_EMBEDDING_ATTEMPTS)).length
    percentage := if total > 0 then (200 * embedded + total) / (2 * total) else 0 }

/-- Outcomes the external services would produce during one upload request:
`modelReady` is `isAIModelReady()` (in `uploadMultipleImages` read once
before the loop as `aiModelAvailable`), the other fields as in `EmbedEnv`. -/
structure UploadEnv where
  modelReady : Bool
  qdrantConnected : Bool
  clientAvailable : Bool
  embedResult : Except String (List Int)
  upsertResult : Except String Unit
deriving Repr

/-- Per-file body of `uploadMultipleImages` (imageController.js lines
38-127), after file save and metadata extraction: the fast path attempts a
synchronous embed-and-upsert when the AI model is available and
`isQdrantConnected()`; `embeddingStatus = completed` and `isEmbedded = true`
are set only inside `if (qdrant)` after a successful upsert, and any thrown
error is caught, leaving `pending`.  The document is then created with
`embeddingAttempts := isEmbedded ? 1 : 0` and the schema defaults for the
remaining embedding fields.  Returns the created record and updated index. -/
def uploadOneImage (env : UploadEnv) (owner newId qId : Nat) (ts : Int)
    (idx : VIndex) : ImageRecord × VIndex :=
  let fast : Option (List Int) :=
    if env.modelReady && env.qdrantConnected then
      match env.embedResult with
      | Except.error _ => none
      | Except.ok v =>
          if env.clientAvailable then
            match env.upsertResult with
            | Except.error _ => none
            | Except.ok _ => some v
          else none
    else none
  match fast with
  | some v =>
      ({ id := newId, user := owner, qdrantId := qId, createdAt := ts,
         isEmbedded := true, embeddingStatus := EmbStatus.completed,
         embeddingError := none, embeddingAttempts := 1,
         lastEmbeddingAttempt := none },
       vupsert idx qId v)
  | none =>
      ({ id := newId, user := owner, qdrantId := qId, createdAt := ts,
         isEmbedded := false, embeddingStatus := EmbStatus.pending,
         embeddingError := none, embeddingAttempts := 0,
         lastEmbeddingAttempt := none }, idx)

/-- Endpoint `uploadImage` (single upload, imageController.js lines 173-301): when
`isAIModelReady()` is false the request is rejected with 503 and no record
is created (`none`).  Otherwise the synchronous upsert is attempted
best-effort (errors swallowed), and the document is created WITHOUT
`isEmbedded`/`embeddingStatus`/`embeddingAttempts`, i.e. with the schema
defaults `false` / `pending` / `0` — even when the upsert succeeded. -/
def uploadImageSingle (env : UploadEnv) (owner newId qId : Nat) (ts : Int)
    (idx : VIndex) : Option (ImageRecord × VIndex) :=
  if !env.modelReady then none
  else
    let idx' :=
      if env.qdrantConnected then
        match env.embedResult with
        | Except.error _ => idx
        | Except.ok v =>
            if env.clientAvailable then
              match env.upsertResult with
              | Except.error _ => idx
              | Except.ok _ => vupsert idx qId v
            else idx
      else idx
    some ({ id := newId, user := owner, qdrantId := qId, createdAt := ts,
            isEmbedded := false, embeddingStatus := EmbStatus.pending,
            embeddingError := none, embeddingAttempts := 0,
            lastEmbeddingAttempt := none }, idx')

/-- Collections store: collection id × referenced image ids. -/
abbrev Collections := List (Nat × List Nat)

/-- The stores `deleteImage` touches. -/
structure GalleryStore where
  records : List ImageRecord
  index : VIndex
  collections : Collections
deriving Repr

/-- Environment of one `deleteImage` request: `vdeleteOk` is the outcome of
`qdrant.delete` (consulted only when attempted). The blob-storage delete is
best-effort and touches no modelled state. -/
structure DeleteEnv where
  qdrantConnected : Bool
  clientAvailable : Bool
  vdeleteOk : Bool
deriving Repr

/-- Endpoint `deleteImage` (imageController.js lines 469-535): look the record up
(404 if absent), check ownership (403), best-effort delete the vector when
`isQdrantConnected()` and a client exists (failure caught and logged),
pull the image id from every collection referencing it, delete the record,
respond 200.  Returns the HTTP status and the new stores. -/
def deleteImage (env : DeleteEnv) (reqUser imgId : Nat) (st : GalleryStore) :
    Nat × GalleryStore :=
  match st.records.find? (fun r => r.id == imgId) with
  | none => (404, st)
  | some image =>
      if image.user ≠ reqUser then (403, st)
      else
        let idx' :=
          if env.qdrantConnected && env.clientAvailable && env.vdeleteOk then
            st.index.filter (fun p => p.1 ≠ image.qdrantId)
          else st.index
        (200,
         { records := st.records.filter (fun r => r.id ≠ image.id)
           index := idx'
           collections := st.collections.map
             (fun c => (c.1, c.2.filter (fun i => i ≠ image.id))) })

/-- One Qdrant search hit: `payload.imageId` (null for points whose
`setPayload` back-fill never happened) and the similarity score.  Scores are
modelled as `Int`; only their ordering matters. -/
structure SearchHit where
  imageId : Option Nat
  score : Int
deriving DecidableEq, Repr

/-- Stable insertion into a descending-sorted list: `x` goes before the
first element whose key is ≤ its own (so among equal keys, earlier elements
stay first — JS `Array.prototype.sort` is stable). -/
def insertDesc (key : ImageRecord → Int) (x : ImageRecord) :
    List ImageRecord → List ImageRecord
  | [] => [x]
  | y :: ys => if key y ≤ key x then x :: y :: ys else y :: insertDesc key x ys

/-- Stable descending sort by `key` (models `.sort((a, b) => key b - key a)`). -/
def sortDesc (key : ImageRecord → Int) : List ImageRecord → List ImageRecord
  | [] => []
  | x :: xs => insertDesc key x (sortDesc key xs)

/-- The score the sort comparator assigns to record `r`:
`searchResults.find(result => result.payload.imageId === r._id.toString())?.score || 0`. -/
def scoreOf (hits : List SearchHit) (r : ImageRecord) : Int :=
  match hits.find? (fun h => h.imageId == some r.id) with
  | some h => h.score
  | none => 0

/-- The AI branch of `searchImages` (imageController.js lines 596-708),
entered with the generated text embedding: validate the embedding (throw on
empty), throw when the collection reports zero points, search the index
with `limit * 3`, map hits to non-null `payload.imageId`s (throw when none),
fetch the matching records that also pass the metadata filters, sort them
by their hit score descending (a record without a hit scores 0), truncate
to `limit`.  Thrown errors are returned as `Except.error` (they become the
structured `searchType: ai` error responses).  `qsearch` is
`qdrant.search` as a function of the vector and the requested `limit`. -/
def searchImagesAI (lim : Nat) (embedding : List Int) (pointsCount : Nat)
    (qsearch : List Int → Nat → List SearchHit)
    (records : List ImageRecord) (pfilter : ImageRecord → Bool) :
    Except String (List ImageRecord) :=
  if embedding.length == 0 then Except.error "Invalid embedding generated"
  else if pointsCount == 0 then
    Except.error "No embedded images available for AI search"
  else
    let searchResults := qsearch embedding (lim * 3)
    let imageIds := searchResults.filterMap (fun h => h.imageId)
    if imageIds.length == 0 then Except.error "No AI search results found"
    else
      let images := records.filter (fun r => imageIds.contains r.id && pfilter r)
      Except.ok ((sortDesc (scoreOf searchResults) images).take lim)

/-- The AI search success path as §4.4 of the spec words it: request
`limit × 3` neighbors, map non-null neighbor ids back to records, apply the
metadata filters, EXCLUDE any surviving record whose score cannot be found
among the neighbors (rather than defaulting it), re-rank the rest by their
index score descending, truncate to `limit`.  Written for comparison with
`searchImagesAI`, the version taken from the code. -/
def searchImagesAISpec (lim : Nat) (embedding : List Int) (pointsCount : Nat)
    (qsearch : List Int → Nat → List SearchHit)
    (records : List ImageRecord) (pfilter : ImageRecord → Bool) :
    Except String (List ImageRecord) :=
  if embedding.length == 0 then Except.error "Invalid embedding generated"
  else if pointsCount == 0 then
    Except.error "No embedded images available for AI search"
  else
    let searchResults := qsearch embedding (lim * 3)
    let imageIds := searchResults.filterMap (fun h => h.imageId)
    if imageIds.length == 0 then Except.error "No AI search results found"
    else
      let images := records.filter (fun r => imageIds.contains r.id && pfilter r)
      let scored := images.filter
        (fun r => (searchResults.find? (fun h => h.imageId == some r.id)).isSome)
      Except.ok ((sortDesc (scoreOf searchResults) scored).take lim)

/-- Leading and trailing whitespace removed, on the character list. -/
def trimChars (l : List Char) : List Char :=
  ((l.dropWhile Char.isWhitespace).reverse.dropWhile Char.isWhitespace).reverse

/-- The JS condition `!query || !query.trim()`: the query is absent, empty
or whitespace-only. -/
def queryBlank (query : String) : Bool :=
  trimChars query.toList == []

/-- Shape of a `searchImages` HTTP response: status code, `success`,
`searchType` tag, result images, error message. -/
structure SearchResponse where
  status : Nat
  success : Bool
  searchType : String
  images : List ImageRecord
  errorMsg : Option String
deriving DecidableEq, Repr

/-- Endpoint `searchImages` (imageController.js lines 542-726).  Empty/blank query:
metadata-only listing sorted by `createdAt` descending, `searchType "all"`.
Otherwise `useAISearch = isQdrantConnected() && await checkQdrantHealth()
&& isAIModelReady()`; when false, respond 503 `searchType "unavailable"`
without running any search; when true, run the AI branch — a thrown error
becomes a 500 response tagged `searchType "ai"` (none of the modelled error
messages contains "Bad Request", the 400 classifier).
`embedTextResult` is the outcome of `generateTextEmbedding`. -/
def searchImages (query : String) (lim : Nat)
    (qdrantConnected qdrantHealthy modelReady : Bool)
    (embedTextResult : Except String (List Int)) (pointsCount : Nat)
    (qsearch : List Int → Nat → List SearchHit)
    (records : List ImageRecord) (pfilter : ImageRecord → Bool) :
    SearchResponse :=
  if queryBlank query then
    { status := 200, success := true, searchType := "all",
      images := (sortDesc (fun r => r.createdAt) (records.filter pfilter)).take lim,
      errorMsg := none }
  else if qdrantConnected && qdrantHealthy && modelReady then
    match embedTextResult with
    | Except.error e =>
        { status := 500, success := false, searchType := "ai", images := [],
          errorMsg := some e }
    | Except.ok embedding =>
        match searchImagesAI lim embedding pointsCount qsearch records pfilter with
        | Except.error e =>
            { status := 500, success := false, searchType := "ai", images := [],
              errorMsg := some e }
        | Except.ok imgs =>
            { status := 200, success := true, searchType := "ai", images := imgs,
              errorMsg := none }
  else
    { status := 503, success := false, searchType := "unavailable", images := [],
      errorMsg := some "AI model or vector database is not ready. Please use filters to browse images." }

/-- The claimed record invariant: `isEmbedded = true ⇔ embeddingStatus = completed`. -/
def recInv (r : ImageRecord) : Prop :=
  r.isEmbedded = true ↔ r.embeddingStatus = EmbStatus.completed

instance (r : ImageRecord) : Decidable (recInv r) := by
  unfold recInv; infer_instance

/-! Concrete sample records, environments and states, used by the witness
and counterexample theorems below. -/

def samplePending : ImageRecord :=
  { id := 1, user := 1, qdrantId := 7, createdAt := 0, isEmbedded := false,
    embeddingStatus := EmbStatus.pending, embeddingError := none,
    embeddingAttempts := 0, lastEmbeddingAttempt := none }

def sampleBoundary : ImageRecord :=
  { id := 2, user := 1, qdrantId := 8, createdAt := 0, isEmbedded := false,
    embeddingStatus := EmbStatus.failed, embeddingError := some "embed failed",
    embeddingAttempts := 1, lastEmbeddingAttempt := some 40000 }

def sampleEmbedded : ImageRecord :=
  { id := 4, user := 1, qdrantId := 11, createdAt := 0, isEmbedded := true,
    embeddingStatus := EmbStatus.completed, embeddingError := none,
    embeddingAttempts := 1, lastEmbeddingAttempt := some 90000 }

def sampleTerminal : ImageRecord :=
  { id := 5, user := 1, qdrantId := 12, createdAt := 0, isEmbedded := false,
    embeddingStatus := EmbStatus.failed, embeddingError := some "embed failed",
    embeddingAttempts := 5, lastEmbeddingAttempt := some 90000 }

def embedEnvOk : EmbedEnv :=
  { embedResult := Except.ok [1], qdrantConnected := true,
    clientAvailable := true, upsertResult := Except.ok () }

def embedEnvNoQdrant : EmbedEnv :=
  { embedResult := Except.ok [1], qdrantConnected := false,
    clientAvailable := false, upsertResult := Except.ok () }

def uploadEnvOk : UploadEnv :=
  { modelReady := true, qdrantConnected := true, clientAvailable := true,
    embedResult := Except.ok [1], upsertResult := Except.ok () }

def uploadEnvModelDown : UploadEnv :=
  { modelReady := false, qdrantConnected := true, clientAvailable := true,
    embedResult := Except.ok [1], upsertResult := Except.ok () }

def sampleState : SysState :=
  { isProcessing := false, modelReady := true, records := [samplePending],
    index := [] }

def sampleMidPass : SysState :=
  { isProcessing := true, modelReady := true, records := [samplePending],
    index := [] }

/-! Helper lemmas. -/

lemma eligible_iff (now : Int) (rec : ImageRecord) :
    eligibleForProcessing now rec = true ↔
      (rec.embeddingStatus = EmbStatus.pending ∨
       (rec.embeddingStatus = EmbStatus.failed ∧
        rec.embeddingAttempts < MAX_EMBEDDING_ATTEMPTS ∧
        (rec.lastEmbeddingAttempt = none ∨
         ∃ t, rec.lastEmbeddingAttempt = some t ∧ now - t > RETRY_DELAY))) := by
  unfold eligibleForProcessing
  cases h : rec.lastEmbeddingAttempt with
  | none => simp [h]
  | some t =>
      simp [h]
      constructor
      · rintro (hp | ⟨⟨hf, ha⟩, ht⟩)
        · exact Or.inl hp
        · exact Or.inr ⟨hf, ha, by omega⟩
      · rintro (hp | ⟨hf, ha, ht⟩)
        · exact Or.inl hp
        · exact Or.inr ⟨⟨hf, ha⟩, by omega⟩

lemma eligible_not_completed (now : Int) (rec : ImageRecord)
    (h : eligibleForProcessing now rec = true) :
    rec.embeddingStatus ≠ EmbStatus.completed := by
  rcases (eligible_iff now rec).mp h with hp | ⟨hf, _⟩
  · rw [hp]; intro hc; cases hc
  · rw [hf]; intro hc; cases hc

lemma recInv_eligible_isEmbedded_false (now : Int) (rec : ImageRecord)
    (hInv : recInv rec) (he : eligibleForProcessing now rec = true) :
    rec.isEmbedded = false := by
  cases hb : rec.isEmbedded
  · rfl
  · exact absurd (hInv.mp hb) (eligible_not_completed now rec he)

lemma processImageEmbedding_recInv (now : Int) (env : EmbedEnv)
    (rec : ImageRecord) (idx : VIndex) (h : rec.isEmbedded = false) :
    recInv (processImageEmbedding now env rec idx).1 := by
  unfold processImageEmbedding recInv
  cases henv : env.embedResult with
  | error e => simp [h]
  | ok v =>
      cases hc : env.qdrantConnected && env.clientAvailable with
      | false => simp [hc]
      | true =>
          cases hup : env.upsertResult with
          | error e => simp [hc, hup, h]
          | ok u => simp [hc, hup]

lemma mem_updateRecord (recs : List ImageRecord) (u r : ImageRecord)
    (h : r ∈ updateRecord recs u) : r = u ∨ r ∈ recs := by
  unfold updateRecord at h
  rcases List.mem_map.mp h with ⟨x, hx, hEq⟩
  by_cases hid : (x.id == u.id) = true
  · left; rw [← hEq]; simp [hid]
  · right; rw [← hEq]; simp [hid]; exact hx

lemma runBatch_recInv (now : Int) (envOf : Nat → EmbedEnv) :
    ∀ (batch recs : List ImageRecord) (idx : VIndex),
      (∀ r ∈ recs, recInv r) → (∀ b ∈ batch, b.isEmbedded = false) →
      ∀ r ∈ (runBatch now envOf batch recs idx).1, recInv r := by
  intro batch
  induction batch with
  | nil => intro recs idx h _ r hr; exact h r hr
  | cons b bs ih =>
      intro recs idx h hb r hr
      rw [runBatch] at hr
      refine ih _ _ ?_ ?_ r hr
      · intro x hx
        rcases mem_updateRecord _ _ _ hx with hx1 | hx2
        · rw [hx1]
          exact processImageEmbedding_recInv now (envOf b.id) b idx
            (hb b (List.mem_cons_self b bs))
        · exact h x hx2
      · intro x hx; exact hb x (List.mem_cons_of_mem b hx)

lemma processPendingEmbeddings_recInv (now : Int) (envOf : Nat → EmbedEnv)
    (s : SysState) (hInv : ∀ r ∈ s.records, recInv r) :
    ∀ r ∈ (processPendingEmbeddings now envOf s).records, recInv r := by
  unfold processPendingEmbeddings
  by_cases hp : s.isProcessing
  · simp [hp]; exact fun r hr => hInv r hr
  · simp [hp]
    by_cases hm : s.modelReady
    · simp [hm]
      unfold passBody
      intro r hr
      refine runBatch_recInv now envOf _ _ _ hInv ?_ r hr
      intro b hbmem
      have hb' := List.take_subset 10 _ hbmem
      have := List.mem_filter.mp hb'
      exact recInv_eligible_isEmbedded_false now b (hInv b this.1) this.2
    · simp [hm]; exact fun r hr => hInv r hr

lemma uploadOneImage_recInv (env : UploadEnv) (owner newId qId : Nat)
    (ts : Int) (idx : VIndex) :
    recInv (uploadOneImage env owner newId qId ts idx).1 := by
  unfold uploadOneImage recInv
  cases hm : env.modelReady && env.qdrantConnected with
  | false => simp [hm]
  | true =>
      cases he : env.embedResult with
      | error e => simp [hm, he]
      | ok v =>
          cases hc : env.clientAvailable with
          | false => simp [hm, he, hc]
          | true =>
              cases hu : env.upsertResult with
              | error e => simp [hm, he, hc, hu]
              | ok u => simp [hm, he, hc, hu]

lemma stats_partition_counts (l : List ImageRecord)
    (hInv : ∀ r ∈ l, recInv r) :
    (l.filter (fun r => r.isEmbedded)).length
    + (l.filter (fun r => r.embeddingStatus == EmbStatus.pending)).length
    + (l.filter (fun r => r.embeddingStatus == EmbStatus.processing)).length
    + (l.filter (fun r => r.embeddingStatus == EmbStatus.failed &&
        r.embeddingAttempts < MAX_EMBEDDING_ATTEMPTS)).length
    + (l.filter (fun r => r.embeddingStatus == EmbStatus.failed &&
        decide (MAX_EMBEDDING_ATTEMPTS ≤ r.embeddingAttempts))).length
    = l.length := by
  induction l with
  | nil => rfl
  | cons r t ih =>
      have hr := hInv r (List.mem_cons_self r t)
      have ht := ih (fun x hx => hInv x (List.mem_cons_of_mem r hx))
      simp only [List.filter_cons, List.length_cons]
      cases hs : r.embeddingStatus with
      | completed =>
          have hb : r.isEmbedded = true := hr.mpr hs
          simp [hs, hb]
          omega
      | pending =>
          have hb : r.isEmbedded = false := by
            cases hbb : r.isEmbedded
            · rfl
            · rw [hr.mp hbb] at hs; cases hs
          simp [hs, hb]
          omega
      | processing =>
          have hb : r.isEmbedded = false := by
            cases hbb : r.isEmbedded
            · rfl
            · rw [hr.mp hbb] at hs; cases hs
          simp [hs, hb]
          omega
      | failed =>
          have hb : r.isEmbedded = false := by
            cases hbb : r.isEmbedded
            · rfl
            · rw [hr.mp hbb] at hs; cases hs
          by_cases ha : r.embeddingAttempts < MAX_EMBEDDING_ATTEMPTS
          · have ha2 : ¬ MAX_EMBEDDING_ATTEMPTS ≤ r.embeddingAttempts := by omega
            simp [hs, hb, ha, ha2]
            omega
          · have ha2 : MAX_EMBEDDING_ATTEMPTS ≤ r.embeddingAttempts := by omega
            simp [hs, hb, ha, ha2]
            omega

lemma statsScope_subset (userId : Option Nat) (records : List ImageRecord) :
    ∀ r ∈ statsScope userId records, r ∈ records := by
  intro r hr
  unfold statsScope at hr
  cases userId with
  | none => exact hr
  | some u => exact List.mem_of_mem_filter hr

/-! Claim theorems. -/

/-- C1: after every pipeline pass and after every (multi-)upload record
creation, every record satisfies `isEmbedded = true ↔ embeddingStatus =
completed`: a pass preserves the invariant store-wide, an uploaded record
is created satisfying it (in particular `isEmbedded` is true only when it
is created `completed`), and the failure path of `processImageEmbedding`
ends in `failed` with `isEmbedded` still false. -/
theorem isEmbedded_iff_completed_invariant
    (s : SysState) (hInv : ∀ r ∈ s.records, recInv r)
    (now : Int) (envOf : Nat → EmbedEnv)
    (uenv : UploadEnv) (owner newId qId : Nat) (ts : Int) (idx : VIndex) :
    (∀ r ∈ (processPendingEmbeddings now envOf s).records, recInv r)
    ∧ recInv (uploadOneImage uenv owner newId qId ts idx).1
    ∧ ((uploadOneImage uenv owner newId qId ts idx).1.isEmbedded = true →
       (uploadOneImage uenv owner newId qId ts idx).1.embeddingStatus = EmbStatus.completed)
    ∧ (∀ (rec : ImageRecord) (idx' : VIndex) (e : String),
        rec.isEmbedded = false → (envOf rec.id).embedResult = Except.error e →
        (processImageEmbedding now (envOf rec.id) rec idx').1.embeddingStatus = EmbStatus.failed
        ∧ (processImageEmbedding now (envOf rec.id) rec idx').1.isEmbedded = false) := by
  refine ⟨processPendingEmbeddings_recInv now envOf s hInv,
          uploadOneImage_recInv uenv owner newId qId ts idx,
          fun h => (uploadOneImage_recInv uenv owner newId qId ts idx).mp h,
          ?_⟩
  intro rec idx' e hemb herr
  unfold processImageEmbedding
  rw [herr]
  exact ⟨rfl, hemb⟩

/-- Witness for C1 at a concrete one-record store and a fully successful
environment. -/
theorem isEmbedded_iff_completed_invariant_witness :
    (∀ r ∈ (processPendingEmbeddings 100000 (fun _ => embedEnvOk) sampleState).records, recInv r)
    ∧ recInv (uploadOneImage uploadEnvOk 1 2 8 0 []).1
    ∧ ((uploadOneImage uploadEnvOk 1 2 8 0 []).1.isEmbedded = true →
       (uploadOneImage uploadEnvOk 1 2 8 0 []).1.embeddingStatus = EmbStatus.completed)
    ∧ (∀ (rec : ImageRecord) (idx' : VIndex) (e : String),
        rec.isEmbedded = false → ((fun _ => embedEnvOk) rec.id).embedResult = Except.error e →
        (processImageEmbedding 100000 ((fun _ => embedEnvOk) rec.id) rec idx').1.embeddingStatus = EmbStatus.failed
        ∧ (processImageEmbedding 100000 ((fun _ => embedEnvOk) rec.id) rec idx').1.isEmbedded = false) :=
  isEmbedded_iff_completed_invariant sampleState (by decide) 100000
    (fun _ => embedEnvOk) uploadEnvOk 1 2 8 0 []

/-- C2 counterexample: with the vector index not connected
(`isQdrantConnected() = false`) and a successful embed, the pipeline marks
the record `completed` (with `isEmbedded = true`) although no vector-index
upsert was performed — the index is unchanged (empty before and after).
The claim says `completed` requires BOTH embed and index upsert to have
succeeded. -/
theorem completed_without_upsert_cex :
    (processImageEmbedding 1000 embedEnvNoQdrant samplePending []).1.embeddingStatus
      = EmbStatus.completed
    ∧ (processImageEmbedding 1000 embedEnvNoQdrant samplePending []).1.isEmbedded = true
    ∧ (processImageEmbedding 1000 embedEnvNoQdrant samplePending []).2 = [] := by
  refine ⟨rfl, rfl, rfl⟩

/-- C2 amended: a record ends `completed` iff the embed succeeded and, IF
the index write was attempted (index connected and client available), that
write succeeded; when the index is unavailable the upsert is skipped and a
successful embed still yields `completed` without any index write (the
index is returned unchanged).  If the embed or an attempted upsert fails,
the record ends `failed` with the captured error message. -/
theorem processImageEmbedding_status_characterization (now : Int)
    (env : EmbedEnv) (rec : ImageRecord) (idx : VIndex) :
    ((processImageEmbedding now env rec idx).1.embeddingStatus = EmbStatus.completed ↔
      (∃ v, env.embedResult = Except.ok v ∧
        ((env.qdrantConnected && env.clientAvailable) = true →
          env.upsertResult = Except.ok ())))
    ∧ (∀ e, env.embedResult = Except.error e →
        (processImageEmbedding now env rec idx).1.embeddingStatus = EmbStatus.failed
        ∧ (processImageEmbedding now env rec idx).1.embeddingError = some e)
    ∧ (∀ v e, env.embedResult = Except.ok v →
        (env.qdrantConnected && env.clientAvailable) = true →
        env.upsertResult = Except.error e →
        (processImageEmbedding now env rec idx).1.embeddingStatus = EmbStatus.failed
        ∧ (processImageEmbedding now env rec idx).1.embeddingError = some e)
    ∧ ((env.qdrantConnected && env.clientAvailable) = false →
        (processImageEmbedding now env rec idx).2 = idx) := by
  unfold processImageEmbedding
  cases he : env.embedResult with
  | error e =>
      refine ⟨by simp, ?_, ?_, ?_⟩
      · intro e' he'; cases he'; exact ⟨rfl, rfl⟩
      · intro v' e' hv; cases hv
      · intro _; rfl
  | ok v =>
      cases hc : env.qdrantConnected && env.clientAvailable with
      | false =>
          refine ⟨by simp, ?_, ?_, ?_⟩
          · intro e' he'; cases he'
          · intro v' e' hv hc'; cases hc'
          · intro _; rfl
      | true =>
          cases hu : env.upsertResult with
          | error e =>
              refine ⟨by simp, ?_, ?_, ?_⟩
              · intro e' he'; cases he'
              · intro v' e' hv hc' hu'; cases hu'; exact ⟨rfl, rfl⟩
              · intro hcf; cases hcf
          | ok u =>
              refine ⟨?_, ?_, ?_, ?_⟩
              · constructor
                · intro _; exact ⟨v, rfl, fun _ => by cases u; rfl⟩
                · intro _; rfl
              · intro e' he'; cases he'
              · intro v' e' hv hc' hu'; cases hu'
              · intro hcf; cases hcf

/-- Witness for the amended C2: a successful embed with an attempted,
successful upsert yields `completed`. -/
theorem processImageEmbedding_status_characterization_witness :
    (processImageEmbedding 1000 embedEnvOk samplePending []).1.embeddingStatus
      = EmbStatus.completed :=
  (processImageEmbedding_status_characterization 1000 embedEnvOk samplePending []).1.mpr
    ⟨[1], rfl, fun _ => rfl⟩

/-- C3 counterexample: at `now = 100000`, a `failed` record with one attempt
and `lastEmbeddingAttempt = 40000` — exactly `RETRY_DELAY` (60000 ms) ago —
is NOT selected: the eligibility predicate is false and a pipeline pass
leaves the record untouched, while the claim says a record exactly
`RETRY_DELAY` ago IS eligible. -/
theorem retry_boundary_cex :
    eligibleForProcessing 100000 sampleBoundary = false
    ∧ (processPendingEmbeddings 100000 (fun _ => embedEnvOk)
        { isProcessing := false, modelReady := true,
          records := [sampleBoundary], index := [] }).records = [sampleBoundary] := by
  exact ⟨rfl, rfl⟩

/-- C3 amended: the pipeline selects a record iff `embeddingStatus =
pending`, or `embeddingStatus = failed` with `embeddingAttempts <
MAX_EMBEDDING_ATTEMPTS` (5) and (`lastEmbeddingAttempt` absent or
`now - lastEmbeddingAttempt > RETRY_DELAY` (60 s), STRICTLY greater: a
failed record whose last attempt is exactly `RETRY_DELAY` ago is NOT
eligible); a failed record with `embeddingAttempts ≥ MAX_EMBEDDING_ATTEMPTS`
is never selected. -/
theorem eligibility_characterization (now : Int) (rec : ImageRecord) :
    (eligibleForProcessing now rec = true ↔
      (rec.embeddingStatus = EmbStatus.pending ∨
       (rec.embeddingStatus = EmbStatus.failed ∧
        rec.embeddingAttempts < MAX_EMBEDDING_ATTEMPTS ∧
        (rec.lastEmbeddingAttempt = none ∨
         ∃ t, rec.lastEmbeddingAttempt = some t ∧ now - t > RETRY_DELAY))))
    ∧ (rec.embeddingStatus = EmbStatus.failed →
       MAX_EMBEDDING_ATTEMPTS ≤ rec.embeddingAttempts →
       eligibleForProcessing now rec = false)
    ∧ (∀ t, rec.lastEmbeddingAttempt = some t → now - t = RETRY_DELAY →
        rec.embeddingStatus = EmbStatus.failed →
        eligibleForProcessing now rec = false) := by
  refine ⟨eligible_iff now rec, ?_, ?_⟩
  · intro hf hmax
    cases hel : eligibleForProcessing now rec
    · rfl
    · rcases (eligible_iff now rec).mp hel with hp | ⟨_, ha, _⟩
      · rw [hf] at hp; cases hp
      · omega
  · intro t ht heq hf
    cases hel : eligibleForProcessing now rec
    · rfl
    · rcases (eligible_iff now rec).mp hel with hp | ⟨_, _, hnone | ⟨t', ht', hgt⟩⟩
      · rw [hf] at hp; cases hp
      · rw [ht] at hnone; cases hnone
      · rw [ht] at ht'
        cases ht'
        omega

/-- Witness for the amended C3: a failed record last attempted strictly
more than a minute ago, with fewer than five attempts, is eligible. -/
theorem eligibility_characterization_witness :
    eligibleForProcessing 100001 sampleBoundary = true :=
  (eligibility_characterization 100001 sampleBoundary).1.mpr
    (Or.inr ⟨rfl, by decide, Or.inr ⟨40000, rfl, by decide⟩⟩)

/-- C4 counterexample: the single-image upload endpoint `uploadImage`
rejects the request with 503 and creates NO record when the AI model is not
ready (`uploadImageSingle` returns `none`), while the claim says that for
every upload request a record is always created and the upload succeeds
even when the model is unavailable.  Moreover even when its synchronous
embed-and-upsert fully succeeds, `uploadImage` creates the record in
`pending` with `isEmbedded = false` and zero attempts, not `completed`. -/
theorem uploadImage_blocks_cex :
    uploadImageSingle uploadEnvModelDown 1 3 9 0 [] = none
    ∧ (uploadImageSingle uploadEnvOk 1 3 9 0 []).map
        (fun p => (p.1.embeddingStatus, p.1.isEmbedded, p.1.embeddingAttempts))
      = some (EmbStatus.pending, false, 0)
    ∧ (uploadImageSingle uploadEnvOk 1 3 9 0 []).map (fun p => p.2)
      = some [(9, [1])] := by
  exact ⟨rfl, rfl, rfl⟩

/-- C4 amended: only the multi-upload endpoint never blocks on embedding —
`uploadMultipleImages` always creates the record, directly in `completed`
(with `isEmbedded = true` and `embeddingAttempts = 1`) exactly when the
model is available, the index connected, the client present, and both the
synchronous embed and upsert succeeded, and in `pending` (with
`isEmbedded = false`, zero attempts) in every other case, including model
or index unavailable.  The single-upload endpoint `uploadImage` instead
rejects with 503 (creating no record) when the model is not ready, and
otherwise always creates the record in `pending` with `isEmbedded = false`
and zero attempts, even when its synchronous upsert succeeded. -/
theorem upload_fast_path_characterization (env : UploadEnv)
    (owner newId qId : Nat) (ts : Int) (idx : VIndex) :
    (((uploadOneImage env owner newId qId ts idx).1.embeddingStatus = EmbStatus.completed
       ∧ (uploadOneImage env owner newId qId ts idx).1.isEmbedded = true
       ∧ (uploadOneImage env owner newId qId ts idx).1.embeddingAttempts = 1)
     ∨ ((uploadOneImage env owner newId qId ts idx).1.embeddingStatus = EmbStatus.pending
       ∧ (uploadOneImage env owner newId qId ts idx).1.isEmbedded = false
       ∧ (uploadOneImage env owner newId qId ts idx).1.embeddingAttempts = 0))
    ∧ ((uploadOneImage env owner newId qId ts idx).1.embeddingStatus = EmbStatus.completed ↔
        ((env.modelReady && env.qdrantConnected && env.clientAvailable) = true
         ∧ (∃ v, env.embedResult = Except.ok v)
         ∧ env.upsertResult = Except.ok ()))
    ∧ (env.modelReady = false →
        uploadImageSingle env owner newId qId ts idx = none)
    ∧ (env.modelReady = true →
        ∃ p, uploadImageSingle env owner newId qId ts idx = some p
         ∧ p.1.embeddingStatus = EmbStatus.pending
         ∧ p.1.isEmbedded = false
         ∧ p.1.embeddingAttempts = 0) := by
  refine ⟨?_, ?_, ?_, ?_⟩
  · unfold uploadOneImage
    cases hm : env.modelReady && env.qdrantConnected with
    | false => right; exact ⟨rfl, rfl, rfl⟩
    | true =>
        cases he : env.embedResult with
        | error e => right; exact ⟨rfl, rfl, rfl⟩
        | ok v =>
            cases hc : env.clientAvailable with
            | false => right; exact ⟨rfl, rfl, rfl⟩
            | true =>
                cases hu : env.upsertResult with
                | error e => right; exact ⟨rfl, rfl, rfl⟩
                | ok u => left; exact ⟨rfl, rfl, rfl⟩
  · unfold uploadOneImage
    cases hm : env.modelReady <;> cases hq : env.qdrantConnected
    · simp
    · simp
    · simp
    · cases he : env.embedResult with
      | error e => simp [he]
      | ok v =>
          cases hc : env.clientAvailable with
          | false => simp [hc]
          | true =>
              cases hu : env.upsertResult with
              | error e => simp [hc, hu]
              | ok u => simp [hc, hu]
  · intro hm; unfold uploadImageSingle; simp [hm]
  · intro hm; unfold uploadImageSingle; simp [hm]

/-- Witness for the amended C4: applying it with the model unavailable
shows the single upload creates no record. -/
theorem upload_fast_path_characterization_witness :
    uploadImageSingle uploadEnvModelDown 1 3 9 0 [] = none :=
  (upload_fast_path_characterization uploadEnvModelDown 1 3 9 0 []).2.2.1 rfl

/-- C5: the AI search success path behaves exactly as the spec describes
it — it requests `limit × 3` nearest neighbors, maps each non-null
neighbor `payload.imageId` back to a record, applies the metadata filters,
excludes (rather than default-scoring) records whose score cannot be found
among the neighbors, re-ranks by index score descending and truncates to
`limit`.  Stated as the equality of the code path `searchImagesAI` with the
spec-worded pipeline `searchImagesAISpec`; the two differ only in that the
code assigns a not-found record the default score 0, which is unreachable
because every fetched record id comes from the neighbor id list. -/
theorem searchImagesAI_matches_spec (lim : Nat) (embedding : List Int)
    (pointsCount : Nat) (qsearch : List Int → Nat → List SearchHit)
    (records : List ImageRecord) (pfilter : ImageRecord → Bool) :
    searchImagesAI lim embedding pointsCount qsearch records pfilter =
    searchImagesAISpec lim embedding pointsCount qsearch records pfilter := by
  unfold searchImagesAI searchImagesAISpec
  cases h1 : embedding.length == 0 with
  | true => simp [h1]
  | false =>
      simp only [h1, Bool.false_eq_true, if_false]
      cases h2 : pointsCount == 0 with
      | true => simp [h2]
      | false =>
          simp only [h2, Bool.false_eq_true, if_false]
          cases h3 : ((qsearch embedding (lim * 3)).filterMap (fun h => h.imageId)).length == 0 with
          | true => simp [h3]
          | false =>
              simp only [h3, Bool.false_eq_true, if_false, Except.ok.injEq]
              have hsc :
                  (records.filter (fun r =>
                      ((qsearch embedding (lim * 3)).filterMap (fun h => h.imageId)).contains r.id
                      && pfilter r)).filter
                    (fun r => ((qsearch embedding (lim * 3)).find?
                        (fun h => h.imageId == some r.id)).isSome)
                  = records.filter (fun r =>
                      ((qsearch embedding (lim * 3)).filterMap (fun h => h.imageId)).contains r.id
                      && pfilter r) := by
                refine List.filter_eq_self.mpr ?_
                intro r hr
                have hcond := (List.mem_filter.mp hr).2
                have hcontains := (Bool.and_eq_true _ _).mp hcond |>.1
                have hmemids : r.id ∈ (qsearch embedding (lim * 3)).filterMap
                    (fun h => h.imageId) := by simpa using hcontains
                rcases List.mem_filterMap.mp hmemids with ⟨h, hmem, himg⟩
                exact List.find?_isSome.mpr ⟨h, hmem, by simp [himg]⟩
              rw [hsc]

/-- C6: the pipeline entry point is single-flight.  A trigger that observes
`isProcessing = true` (any trigger firing while a pass is mid-flight)
returns immediately, changing nothing; two concurrent triggers — the second
firing after the first set the guard — produce exactly the state of one
single pass (one batch drained); and a pass entered with the guard free
always ends with the guard cleared, even when its try-body throws after any
number of processed records. -/
theorem processPendingEmbeddings_single_flight
    (s s' : SysState) (h : s.isProcessing = false) (h' : s'.isProcessing = true)
    (now₁ now₂ : Int) (envOf₁ envOf₂ : Nat → EmbedEnv) (k : Nat) :
    processPendingEmbeddings now₂ envOf₂ s' = s'
    ∧ twoConcurrentTriggers now₁ now₂ envOf₁ envOf₂ s
        = processPendingEmbeddings now₁ envOf₁ s
    ∧ (processPendingEmbeddingsErr now₁ envOf₁ k s).isProcessing = false := by
  refine ⟨?_, ?_, ?_⟩
  · unfold processPendingEmbeddings
    simp [h']
  · unfold twoConcurrentTriggers processPendingEmbeddings
    simp [h]
  · unfold processPendingEmbeddingsErr
    simp [h]
    by_cases hm : s.modelReady
    · simp [hm]
    · simp [hm, h]

/-- Witness for C6 at a concrete idle state and a concrete mid-pass state. -/
theorem processPendingEmbeddings_single_flight_witness :
    processPendingEmbeddings 200000 (fun _ => embedEnvOk) sampleMidPass = sampleMidPass
    ∧ twoConcurrentTriggers 100000 200000 (fun _ => embedEnvOk) (fun _ => embedEnvOk) sampleState
        = processPendingEmbeddings 100000 (fun _ => embedEnvOk) sampleState
    ∧ (processPendingEmbeddingsErr 100000 (fun _ => embedEnvOk) 0 sampleState).isProcessing = false :=
  processPendingEmbeddings_single_flight sampleState sampleMidPass rfl rfl
    100000 200000 (fun _ => embedEnvOk) (fun _ => embedEnvOk) 0

/-- C7: with a non-empty (non-blank) query, whenever the vector index is
not connected-and-healthy or the model is not ready, `searchImages`
responds 503 with `searchType = "unavailable"`, no results and an
explanatory error — in particular no metadata-only fallback result is
returned in its place. -/
theorem search_unavailable_when_not_ready (query : String) (lim : Nat)
    (qc qh mr : Bool) (etr : Except String (List Int)) (pc : Nat)
    (qsearch : List Int → Nat → List SearchHit)
    (records : List ImageRecord) (pfilter : ImageRecord → Bool)
    (hq : queryBlank query = false) (hun : (qc && qh && mr) = false) :
    searchImages query lim qc qh mr etr pc qsearch records pfilter =
      { status := 503, success := false, searchType := "unavailable",
        images := [],
        errorMsg := some "AI model or vector database is not ready. Please use filters to browse images." } := by
  unfold searchImages
  simp [hq, hun]

/-- Witness for C7: a concrete query with the index disconnected. -/
theorem search_unavailable_when_not_ready_witness :
    searchImages "sunset" 20 false true true (Except.ok [1]) 5
        (fun _ _ => []) [] (fun _ => true) =
      { status := 503, success := false, searchType := "unavailable",
        images := [],
        errorMsg := some "AI model or vector database is not ready. Please use filters to browse images." } :=
  search_unavailable_when_not_ready "sunset" 20 false true true (Except.ok [1]) 5
    (fun _ _ => []) [] (fun _ => true) rfl rfl

/-- C8: with a non-empty query and the AI path entered (index connected and
healthy, model ready, text embedding generated), a zero-point index or an
empty embedding yields a structured AI-search failure: HTTP 500,
`success = false`, `searchType = "ai"`, an error message, and no images —
neither a metadata fallback nor an empty success result. -/
theorem search_ai_error_on_degenerate_input (query : String) (lim : Nat)
    (qc qh mr : Bool) (emb : List Int) (pc : Nat)
    (qsearch : List Int → Nat → List SearchHit)
    (records : List ImageRecord) (pfilter : ImageRecord → Bool)
    (hq : queryBlank query = false) (hready : (qc && qh && mr) = true)
    (hbad : pc = 0 ∨ emb = []) :
    (searchImages query lim qc qh mr (Except.ok emb) pc qsearch records pfilter).status = 500
    ∧ (searchImages query lim qc qh mr (Except.ok emb) pc qsearch records pfilter).success = false
    ∧ (searchImages query lim qc qh mr (Except.ok emb) pc qsearch records pfilter).searchType = "ai"
    ∧ (searchImages query lim qc qh mr (Except.ok emb) pc qsearch records pfilter).errorMsg.isSome = true
    ∧ (searchImages query lim qc qh mr (Except.ok emb) pc qsearch records pfilter).images = [] := by
  unfold searchImages
  simp only [hq, Bool.false_eq_true, if_false, hready, if_true]
  rcases hbad with hpc | hemb
  · unfold searchImagesAI
    cases hlen : emb.length == 0 with
    | true => simp [hlen]
    | false => simp [hlen, hpc]
  · unfold searchImagesAI
    simp [hemb]

/-- Witness for C8: query "sunset" against an index reporting zero points. -/
theorem search_ai_error_on_degenerate_input_witness :
    (searchImages "sunset" 20 true true true (Except.ok [1]) 0
        (fun _ _ => []) [] (fun _ => true)).searchType = "ai" :=
  (search_ai_error_on_degenerate_input "sunset" 20 true true true [1] 0
    (fun _ _ => []) [] (fun _ => true) rfl rfl (Or.inl rfl)).2.2.1

/-- C9: when the record exists and belongs to the requester, `deleteImage`
responds 200 and removes the metadata record and its collection references
in every environment; when the vector delete is attempted and succeeds the
vector under the record `qdrantId` is removed from the index; and when the
vector delete fails the metadata record is still deleted and the operation
still succeeds. -/
theorem deleteImage_contract (env : DeleteEnv) (reqUser imgId : Nat)
    (st : GalleryStore) (image : ImageRecord)
    (hfind : st.records.find? (fun r => r.id == imgId) = some image)
    (hown : image.user = reqUser) :
    (deleteImage env reqUser imgId st).1 = 200
    ∧ (∀ r ∈ (deleteImage env reqUser imgId st).2.records, r.id ≠ image.id)
    ∧ (∀ c ∈ (deleteImage env reqUser imgId st).2.collections, image.id ∉ c.2)
    ∧ ((env.qdrantConnected && env.clientAvailable && env.vdeleteOk) = true →
        ∀ p ∈ (deleteImage env reqUser imgId st).2.index, p.1 ≠ image.qdrantId)
    ∧ (env.vdeleteOk = false →
        (deleteImage env reqUser imgId st).1 = 200
        ∧ ∀ r ∈ (deleteImage env reqUser imgId st).2.records, r.id ≠ image.id) := by
  have hD : deleteImage env reqUser imgId st =
      (200,
       { records := st.records.filter (fun r => r.id ≠ image.id)
         index :=
           if env.qdrantConnected && env.clientAvailable && env.vdeleteOk then
             st.index.filter (fun p => p.1 ≠ image.qdrantId)
           else st.index
         collections := st.collections.map
           (fun c => (c.1, c.2.filter (fun i => i ≠ image.id))) }) := by
    unfold deleteImage
    rw [hfind]
    simp [hown]
  rw [hD]
  refine ⟨rfl, ?_, ?_, ?_, ?_⟩
  · intro r hr
    simpa using (List.mem_filter.mp hr).2
  · intro c hc
    rcases List.mem_map.mp hc with ⟨c0, hc0, hEq⟩
    rw [← hEq]
    intro hmem
    have := (List.mem_filter.mp hmem).2
    simp at this
  · intro hcond
    rw [if_pos hcond]
    intro p hp
    simpa using (List.mem_filter.mp hp).2
  · intro _
    refine ⟨rfl, ?_⟩
    intro r hr
    simpa using (List.mem_filter.mp hr).2

/-- Witness for C9 at a concrete store in which the vector delete fails:
the record is still removed and the status is 200. -/
theorem deleteImage_contract_witness :
    (deleteImage { qdrantConnected := true, clientAvailable := true, vdeleteOk := false }
        1 4 { records := [sampleEmbedded], index := [(11, [1])],
              collections := [(6, [4, 9])] }).1 = 200
    ∧ ∀ r ∈ (deleteImage { qdrantConnected := true, clientAvailable := true, vdeleteOk := false }
        1 4 { records := [sampleEmbedded], index := [(11, [1])],
              collections := [(6, [4, 9])] }).2.records, r.id ≠ sampleEmbedded.id :=
  (deleteImage_contract
    { qdrantConnected := true, clientAvailable := true, vdeleteOk := false } 1 4
    { records := [sampleEmbedded], index := [(11, [1])], collections := [(6, [4, 9])] }
    sampleEmbedded rfl rfl).2.2.2.2 rfl

/-- C10: under the store invariant, the `failed` count of
`getEmbeddingStats` covers exactly the records with status `failed` and
fewer than `MAX_EMBEDDING_ATTEMPTS` (5) attempts; every record is counted
by exactly one of `embedded`/`pending`/`processing`/`failed` except the
terminally failed ones (status `failed`, attempts ≥ 5), which count only
toward `total`; hence whenever a terminally failed record exists,
`embedded + pending + processing + failed < total`. -/
theorem embedding_stats_terminal_failures (userId : Option Nat)
    (records : List ImageRecord) (hInv : ∀ r ∈ records, recInv r) :
    (getEmbeddingStats userId records).failed
      = ((statsScope userId records).filter (fun r =>
          r.embeddingStatus == EmbStatus.failed &&
          r.embeddingAttempts < MAX_EMBEDDING_ATTEMPTS)).length
    ∧ (getEmbeddingStats userId records).embedded
      + (getEmbeddingStats userId records).pending
      + (getEmbeddingStats userId records).processing
      + (getEmbeddingStats userId records).failed
      + ((statsScope userId records).filter (fun r =>
          r.embeddingStatus == EmbStatus.failed &&
          decide (MAX_EMBEDDING_ATTEMPTS ≤ r.embeddingAttempts))).length
      = (getEmbeddingStats userId records).total
    ∧ ((∃ r ∈ statsScope userId records,
          r.embeddingStatus = EmbStatus.failed ∧
          MAX_EMBEDDING_ATTEMPTS ≤ r.embeddingAttempts) →
        (getEmbeddingStats userId records).embedded
        + (getEmbeddingStats userId records).pending
        + (getEmbeddingStats userId records).processing
        + (getEmbeddingStats userId records).failed
        < (getEmbeddingStats userId records).total) := by
  have hscope : ∀ r ∈ statsScope userId records, recInv r :=
    fun r hr => hInv r (statsScope_subset userId records r hr)
  have hpart := stats_partition_counts (statsScope userId records) hscope
  refine ⟨rfl, hpart, ?_⟩
  rintro ⟨r, hrmem, hfail, hge⟩
  have hterm : r ∈ (statsScope userId records).filter (fun r =>
      r.embeddingStatus == EmbStatus.failed &&
      decide (MAX_EMBEDDING_ATTEMPTS ≤ r.embeddingAttempts)) :=
    List.mem_filter.mpr ⟨hrmem, by simp [hfail, hge]⟩
  have hpos := List.length_pos_of_mem hterm
  have hsum :
      (getEmbeddingStats userId records).embedded
      + (getEmbeddingStats userId records).pending
      + (getEmbeddingStats userId records).processing
      + (getEmbeddingStats userId records).failed
      + ((statsScope userId records).filter (fun r =>
          r.embeddingStatus == EmbStatus.failed &&
          decide (MAX_EMBEDDING_ATTEMPTS ≤ r.embeddingAttempts))).length
      = (getEmbeddingStats userId records).total := hpart
  omega

/-- Witness for C10: a store holding one completed and one terminally
failed record has category counts summing strictly below the total. -/
theorem embedding_stats_terminal_failures_witness :
    (getEmbeddingStats none [sampleEmbedded, sampleTerminal]).embedded
    + (getEmbeddingStats none [sampleEmbedded, sampleTerminal]).pending
    + (getEmbeddingStats none [sampleEmbedded, sampleTerminal]).processing
    + (getEmbeddingStats none [sampleEmbedded, sampleTerminal]).failed
    < (getEmbeddingStats none [sampleEmbedded, sampleTerminal]).total :=
  (embedding_stats_terminal_failures none [sampleEmbedded, sampleTerminal]
      (by decide)).2.2
    ⟨sampleTerminal, by decide, rfl, by decide⟩
